import Mathlib

/-!
# Memories Album — verification of the service layer

A shallow embedding of the memories-album backend (TypeScript/Express/Mongoose)
service layer. The document database is modelled as an explicit `DB` state of
lists of documents; Mongo ObjectIds are modelled as `String` (the hex string
`_id.toString()` yields); each service function from `album.service.ts`,
`media.service.ts` (two revisions) and `auth.service.ts` becomes a pure Lean
function taking and returning the `DB` state, with `Except ApiError` for
fallible results.  External collaborators (the Cloudinary SDK, bcrypt, jwt)
are passed in as function parameters or modelled by boolean outcome flags,
since they sit outside the repository.  Database transactions are modelled by
an outcome flag: a committed transaction applies all of its writes, an aborted
one applies none (the Mongo session semantics the code relies on).
-/

deriving instance DecidableEq for Except

namespace MemoriesAlbum

/-- JavaScript `String.prototype.startsWith`, evaluated on the character
list so that concrete instances reduce inside the kernel. -/
def strStartsWith (s p : String) : Bool :=
  p.data.isPrefixOf s.data

/-- An HTTP-status-carrying error, as produced by `createHttpError(status, message)`. -/
structure ApiError where
  status : Nat
  message : String
deriving DecidableEq, Repr

/-- `User` document, from `User.model.ts`: unique username, unique email,
hashed password, optional profile picture, list of album id references. -/
structure User where
  id : String
  username : String
  email : String
  password : String
  profilePictureUrl : Option String := none
  albums : List String := []
deriving DecidableEq, Repr

/-- `Album` document, from `Album.model.ts`: required name, optional
description, required owner reference, optional cover image URL, list of
media-item id references, `isPublic` flag defaulting to `false`. -/
structure Album where
  id : String
  name : String
  description : Option String := none
  owner : String
  coverImageUrl : Option String := none
  mediaItems : List String := []
  isPublic : Bool := false
deriving DecidableEq, Repr

/-- The `type` field of a media item: `'image' | 'video'`. -/
inductive MediaType where
  | image
  | video
deriving DecidableEq, Repr

/-- `MediaItem` document, from `MediaItem.model.ts`. -/
structure MediaItem where
  id : String
  type : MediaType
  cloudinaryPublicId : String
  cloudinaryUrl : String
  thumbnailUrl : Option String := none
  title : Option String := none
  description : Option String := none
  album : String
  uploader : String
deriving DecidableEq, Repr

/-- The document store: the three collections plus a fresh-id counter
standing in for Mongo's ObjectId generation. -/
structure DB where
  users : List User := []
  albums : List Album := []
  mediaItems : List MediaItem := []
  nextId : Nat := 0
deriving DecidableEq, Repr

/-- `Album.findById(id)` — first album whose id matches. -/
def DB.findAlbum (db : DB) (albumId : String) : Option Album :=
  db.albums.find? (fun a => a.id == albumId)

/-- `MediaItem.findById(id)`. -/
def DB.findMediaItem (db : DB) (mediaItemId : String) : Option MediaItem :=
  db.mediaItems.find? (fun m => m.id == mediaItemId)

/-- `User.findOne({ email })`. -/
def DB.findUserByEmail (db : DB) (email : String) : Option User :=
  db.users.find? (fun u => u.email == email)

/-! ## album.service.ts -/

/-- The output type of `createAlbumSchema.parse`: zod strips every key that is
not declared in the object schema, so only these four fields can reach the
service layer (`album.validator.ts`). -/
structure CreateAlbumInput where
  name : String
  description : Option String := none
  isPublic : Bool := false
  coverImageUrl : Option String := none
deriving DecidableEq, Repr

/-- A raw `POST /albums` request body as a client may send it, including the
`owner` and `mediaItems` keys a malicious client could try to smuggle in. -/
structure RawAlbumBody where
  name : Option String := none
  description : Option String := none
  isPublic : Option Bool := none
  coverImageUrl : Option String := none
  owner : Option String := none
  mediaItems : Option (List String) := none
deriving DecidableEq, Repr

/-- `createAlbumSchema.parse` from `album.validator.ts`: `name` is a required
string with `min(1)`/`max(100)` then `trim()`, `description` is optional with
`max(500)` then `trim()`, `isPublic` defaults to `false`, `coverImageUrl` is
optional; unknown keys (`owner`, `mediaItems`, ...) are stripped.  The zod
`.url()` well-formedness check on `coverImageUrl` (a call into the zod
library) is not modelled; no claim depends on URL syntax. -/
def createAlbumSchemaParse (body : RawAlbumBody) : Except ApiError CreateAlbumInput :=
  match body.name with
  | none => .error ⟨400, "Validation error"⟩
  | some n =>
    if n.length < 1 then .error ⟨400, "Validation error"⟩
    else if n.length > 100 then .error ⟨400, "Validation error"⟩
    else
      match body.description with
      | some d =>
        if d.length > 500 then .error ⟨400, "Validation error"⟩
        else .ok { name := n.trim, description := some d.trim,
                   isPublic := body.isPublic.getD false,
                   coverImageUrl := body.coverImageUrl }
      | none =>
        .ok { name := n.trim, description := none,
              isPublic := body.isPublic.getD false,
              coverImageUrl := body.coverImageUrl }

/-- `createAlbum` from `album.service.ts`: `Album.create({...albumData,
owner: userId, mediaItems: []})` — the spread is overridden by the explicit
`owner` and `mediaItems` fields placed after it. -/
def createAlbum (db : DB) (albumData : CreateAlbumInput) (userId : String) :
    DB × Except ApiError Album :=
  let album : Album :=
    { id := toString db.nextId,
      name := albumData.name,
      description := albumData.description,
      owner := userId,
      coverImageUrl := albumData.coverImageUrl,
      mediaItems := [],
      isPublic := albumData.isPublic }
  ({ db with albums := db.albums ++ [album], nextId := db.nextId + 1 }, .ok album)

/-- `getAlbumById` from `album.service.ts`: 404 when absent, 403 when the
album is not public and the requester is not the owner. -/
def getAlbumById (db : DB) (albumId userId : String) : Except ApiError Album :=
  match db.findAlbum albumId with
  | none => .error ⟨404, "Album not found"⟩
  | some album =>
    if !album.isPublic && album.owner != userId then
      .error ⟨403, "You do not have permission to access this album"⟩
    else
      .ok album

/-- The output type of `updateAlbumSchema.parse`: all four fields optional. -/
structure UpdateAlbumInput where
  name : Option String := none
  description : Option String := none
  isPublic : Option Bool := none
  coverImageUrl : Option String := none
deriving DecidableEq, Repr

/-- `Object.assign(album, updateData)`: keys present in `updateData`
overwrite the album's, absent keys leave it unchanged. -/
def applyAlbumUpdate (a : Album) (u : UpdateAlbumInput) : Album :=
  { a with
    name := u.name.getD a.name,
    description := match u.description with | some d => some d | none => a.description,
    isPublic := u.isPublic.getD a.isPublic,
    coverImageUrl := match u.coverImageUrl with | some c => some c | none => a.coverImageUrl }

/-- `updateAlbum` from `album.service.ts`: 404 when absent, 403 when the
requester is not the owner, otherwise assign-and-save. -/
def updateAlbum (db : DB) (albumId : String) (updateData : UpdateAlbumInput)
    (userId : String) : DB × Except ApiError Album :=
  match db.findAlbum albumId with
  | none => (db, .error ⟨404, "Album not found"⟩)
  | some album =>
    if album.owner != userId then
      (db, .error ⟨403, "You do not have permission to update this album"⟩)
    else
      let album' := applyAlbumUpdate album updateData
      ({ db with albums := db.albums.map (fun a => if a.id == albumId then album' else a) },
        .ok album')

/-- `deleteAlbum` from `album.service.ts`: 404 when absent, 403 when the
requester is not the owner; otherwise, inside one Mongo session transaction,
`MediaItem.deleteMany({album: albumId})` then `Album.findByIdAndDelete`.
`txCommits` is the transaction outcome: on commit both deletions apply, on
abort (`abortTransaction`) no session write applies and the error that caused
the abort is rethrown. -/
def deleteAlbum (db : DB) (albumId userId : String) (txCommits : Bool) :
    DB × Except ApiError String :=
  match db.findAlbum albumId with
  | none => (db, .error ⟨404, "Album not found"⟩)
  | some album =>
    if album.owner != userId then
      (db, .error ⟨403, "You do not have permission to delete this album"⟩)
    else if txCommits then
      ({ db with
          mediaItems := db.mediaItems.filter (fun m => m.album != albumId),
          albums := db.albums.filter (fun a => a.id != albumId) },
        .ok "Album deleted successfully")
    else
      (db, .error ⟨500, "Transaction aborted"⟩)

/-! ## media.service.ts -/

/-- The formatted result `uploadToCloudinary` returns (field names follow the
Cloudinary SDK response: `public_id`, `secure_url`, ...). -/
structure CloudinaryUploadResult where
  publicId : String
  secureUrl : String
  resourceType : String
  format : String
  width : Option Nat := none
  height : Option Nat := none
  duration : Option Nat := none
  thumbnailUrl : Option String := none
deriving DecidableEq, Repr

/-- The output type of `createMediaItemSchema.parse` / the `mediaData` object
the controllers build for `createMediaItem`. -/
structure CreateMediaItemInput where
  type : MediaType
  cloudinaryPublicId : String
  cloudinaryUrl : String
  thumbnailUrl : Option String := none
  title : Option String := none
  description : Option String := none
  albumId : String
deriving DecidableEq, Repr

/-- The media item `MediaItem.create` builds inside `createMediaItem`:
`{...restData, uploader: userId, album: albumId}` with a fresh id. -/
def newMediaItem (db : DB) (mediaData : CreateMediaItemInput) (userId : String) : MediaItem :=
  { id := toString db.nextId,
    type := mediaData.type,
    cloudinaryPublicId := mediaData.cloudinaryPublicId,
    cloudinaryUrl := mediaData.cloudinaryUrl,
    thumbnailUrl := mediaData.thumbnailUrl,
    title := mediaData.title,
    description := mediaData.description,
    album := mediaData.albumId,
    uploader := userId }

/-- `createMediaItem` from `media.service.ts`: look up the album (404),
check ownership (403), create the media item, push its id onto
`album.mediaItems` and save the album. -/
def createMediaItem (db : DB) (mediaData : CreateMediaItemInput) (userId : String) :
    DB × Except ApiError MediaItem :=
  match db.findAlbum mediaData.albumId with
  | none => (db, .error ⟨404, "Album not found"⟩)
  | some album =>
    if album.owner != userId then
      (db, .error ⟨403, "You do not have permission to add media to this album"⟩)
    else
      let item := newMediaItem db mediaData userId
      let album' := { album with mediaItems := album.mediaItems ++ [item.id] }
      ({ db with
          mediaItems := db.mediaItems ++ [item],
          albums := db.albums.map (fun a => if a.id == album.id then album' else a),
          nextId := db.nextId + 1 },
        .ok item)

/-- `getMediaItemsByAlbum` from `media.service.ts`: 404 when the album is
absent, 403 when it is not public and the requester is not the owner,
otherwise `MediaItem.find({album: albumId})`. -/
def getMediaItemsByAlbum (db : DB) (albumId userId : String) :
    Except ApiError (List MediaItem) :=
  match db.findAlbum albumId with
  | none => .error ⟨404, "Album not found"⟩
  | some album =>
    if !album.isPublic && album.owner != userId then
      .error ⟨403, "You do not have permission to access this album"⟩
    else
      .ok (db.mediaItems.filter (fun m => m.album == albumId))

/-- `getMediaItemById` from `media.service.ts`: 404 when the item is absent,
404 when its album is absent, 403 when the album is not public and the
requester is not the owner. -/
def getMediaItemById (db : DB) (mediaItemId userId : String) :
    Except ApiError MediaItem :=
  match db.findMediaItem mediaItemId with
  | none => .error ⟨404, "Media item not found"⟩
  | some mediaItem =>
    match db.findAlbum mediaItem.album with
    | none => .error ⟨404, "Album not found"⟩
    | some album =>
      if !album.isPublic && album.owner != userId then
        .error ⟨403, "You do not have permission to access this media item"⟩
      else
        .ok mediaItem

/-- The output type of `updateMediaItemSchema.parse`. -/
structure UpdateMediaItemInput where
  title : Option String := none
  description : Option String := none
deriving DecidableEq, Repr

/-- `updateMediaItem` from `media.service.ts`: 404 when absent, 403 when the
requester is not the uploader, otherwise `Object.assign`-and-save. -/
def updateMediaItem (db : DB) (mediaItemId : String) (updateData : UpdateMediaItemInput)
    (userId : String) : DB × Except ApiError MediaItem :=
  match db.findMediaItem mediaItemId with
  | none => (db, .error ⟨404, "Media item not found"⟩)
  | some mediaItem =>
    if mediaItem.uploader != userId then
      (db, .error ⟨403, "You do not have permission to update this media item"⟩)
    else
      let mediaItem' :=
        { mediaItem with
          title := match updateData.title with | some t => some t | none => mediaItem.title,
          description := match updateData.description with
            | some d => some d | none => mediaItem.description }
      ({ db with
          mediaItems := db.mediaItems.map (fun m => if m.id == mediaItemId then mediaItem' else m) },
        .ok mediaItem')

/-- `deleteMediaItem` from `media.service.ts` (first revision): find the item
(404), find its album (404), allow uploader or album owner (else 403); inside
a session transaction delete the item (`MediaItem.findByIdAndDelete`) and
filter its id out of `album.mediaItems` (`id.toString() !== mediaItemId`, a
string-to-string comparison) then save the album; after commit, await
`cloudinary.uploader.destroy(mediaItem.cloudinaryPublicId)`.  `txCommits` is
the transaction outcome; `destroySucceeds` the Cloudinary outcome — when the
destroy call rejects, the error is rethrown out of the inner try block, so it
surfaces to the caller while the committed transaction stands.  The third
component of the result lists the public ids the Cloudinary destroy endpoint
was invoked with, in order. -/
def deleteMediaItem (db : DB) (mediaItemId userId : String)
    (txCommits destroySucceeds : Bool) :
    DB × Except ApiError String × List String :=
  match db.findMediaItem mediaItemId with
  | none => (db, .error ⟨404, "Media item not found"⟩, [])
  | some mediaItem =>
    match db.findAlbum mediaItem.album with
    | none => (db, .error ⟨404, "Album not found"⟩, [])
    | some album =>
      let isUploader := mediaItem.uploader == userId
      let isAlbumOwner := album.owner == userId
      if !isUploader && !isAlbumOwner then
        (db, .error ⟨403, "You do not have permission to delete this media item"⟩, [])
      else if !txCommits then
        (db, .error ⟨500, "Transaction aborted"⟩, [])
      else
        let album' := { album with
          mediaItems := album.mediaItems.filter (fun idStr => idStr != mediaItemId) }
        let db' := { db with
          mediaItems := db.mediaItems.filter (fun m => m.id != mediaItemId),
          albums := db.albums.map (fun a => if a.id == album.id then album' else a) }
        if destroySucceeds then
          (db', .ok "Media item deleted successfully", [mediaItem.cloudinaryPublicId])
        else
          (db', .error ⟨500, "Cloudinary destroy failed"⟩, [mediaItem.cloudinaryPublicId])

/-- A JavaScript runtime value as far as strict (in)equality is concerned:
the later `media.service.ts` revision compares `id.toString()` (a string)
against `mediaItem._id` (an ObjectId object) with `!==`. -/
inductive JsVal where
  | str (s : String)
  | objectId (s : String)
deriving DecidableEq, Repr

/-- JavaScript strict equality `===` between a string and an ObjectId: values
of different runtime types are never strictly equal. -/
def jsStrictEq (a b : JsVal) : Bool := a == b

/-- `deleteMediaItem` from the later `media.service.ts` revision, which
differs in the album filter: `id.toString() !== mediaItem._id` compares a
string with an ObjectId, so the predicate is true for every element and the
album's `mediaItems` list is saved unchanged. -/
def deleteMediaItemV2 (db : DB) (mediaItemId userId : String)
    (txCommits destroySucceeds : Bool) :
    DB × Except ApiError String × List String :=
  match db.findMediaItem mediaItemId with
  | none => (db, .error ⟨404, "Media item not found"⟩, [])
  | some mediaItem =>
    match db.findAlbum mediaItem.album with
    | none => (db, .error ⟨404, "Album not found"⟩, [])
    | some album =>
      let isUploader := mediaItem.uploader == userId
      let isAlbumOwner := album.owner == userId
      if !isUploader && !isAlbumOwner then
        (db, .error ⟨403, "You do not have permission to delete this media item"⟩, [])
      else if !txCommits then
        (db, .error ⟨500, "Transaction aborted"⟩, [])
      else
        let album' := { album with
          mediaItems := album.mediaItems.filter
            (fun idStr => !(jsStrictEq (JsVal.str idStr) (JsVal.objectId mediaItem.id))) }
        let db' := { db with
          mediaItems := db.mediaItems.filter (fun m => m.id != mediaItemId),
          albums := db.albums.map (fun a => if a.id == album.id then album' else a) }
        if destroySucceeds then
          (db', .ok "Media item deleted successfully", [mediaItem.cloudinaryPublicId])
        else
          (db', .error ⟨500, "Cloudinary destroy failed"⟩, [mediaItem.cloudinaryPublicId])

/-! ## auth.service.ts -/

/-- The `userResponse` object both auth endpoints return: every `User` field
except `password`. -/
structure UserResponse where
  id : String
  username : String
  email : String
  profilePictureUrl : Option String
  albums : List String
deriving DecidableEq, Repr

/-- Strip the password field from a user document. -/
def toUserResponse (u : User) : UserResponse :=
  { id := u.id, username := u.username, email := u.email,
    profilePictureUrl := u.profilePictureUrl, albums := u.albums }

/-- `generateToken`: `jwt.sign({userId}, secret, {expiresIn})`.  The jwt
library is outside the repository; the token is modelled as an injective
encoding of the user id it embeds. -/
def generateToken (userId : String) : String :=
  "jwt:" ++ userId

/-- `registerUser` from `auth.service.ts`: `User.findOne({$or: [{email},
{username}]})` (first matching document); if one exists, report 409 "Email
already in use" when its email equals the requested email, otherwise 409
"Username already taken"; else hash the password (`hashFn` stands for
bcrypt), create the user with an empty albums list, and return the
password-stripped user plus a token embedding the new user's id. -/
def registerUser (db : DB) (username email password : String)
    (hashFn : String → String) :
    DB × Except ApiError (UserResponse × String) :=
  match db.users.find? (fun u => u.email == email || u.username == username) with
  | some existingUser =>
    if existingUser.email == email then
      (db, .error ⟨409, "Email already in use"⟩)
    else
      (db, .error ⟨409, "Username already taken"⟩)
  | none =>
    let user : User :=
      { id := toString db.nextId, username := username, email := email,
        password := hashFn password, profilePictureUrl := none, albums := [] }
    ({ db with users := db.users ++ [user], nextId := db.nextId + 1 },
      .ok (toUserResponse user, generateToken user.id))

/-- `loginUser` from `auth.service.ts`: look up by email; 401 "Invalid
credentials" when absent; compare passwords with `compareFn` (bcrypt.compare);
401 "Invalid credentials" when the comparison fails; otherwise return the
password-stripped user and a fresh token. -/
def loginUser (db : DB) (compareFn : String → String → Bool)
    (email password : String) : Except ApiError (UserResponse × String) :=
  match db.findUserByEmail email with
  | none => .error ⟨401, "Invalid credentials"⟩
  | some user =>
    if !compareFn password user.password then
      .error ⟨401, "Invalid credentials"⟩
    else
      .ok (toUserResponse user, generateToken user.id)

/-! ## upload.middleware.ts and mediaItem.controller.ts -/

/-- A multipart file as multer presents it. -/
structure UploadedFile where
  mimetype : String
  originalname : String
  sizeBytes : Nat
deriving DecidableEq, Repr

/-- `fileFilter` from `upload.middleware.ts` accepts exactly the files whose
MIME type starts with `image/` or `video/`. -/
def fileFilterAccepts (f : UploadedFile) : Bool :=
  strStartsWith f.mimetype "image/" || strStartsWith f.mimetype "video/"

/-- The multer `limits.fileSize` configuration: 10MB. -/
def maxFileSizeBytes : Nat := 10 * 1024 * 1024

/-- One file passing through multer: the file filter rejects disallowed MIME
types with the 400 from `fileFilter`; the size limit produces the
`LIMIT_FILE_SIZE` MulterError which `handleMulterError` maps to its 400. -/
def multerCheckFile (f : UploadedFile) : Except ApiError Unit :=
  if !(fileFilterAccepts f) then
    .error ⟨400, "Only image and video files are allowed"⟩
  else if f.sizeBytes > maxFileSizeBytes then
    .error ⟨400, "File too large. Maximum size is 10MB"⟩
  else
    .ok ()

/-- The external upload call: `mediaItemService.uploadToCloudinary`.  The
Cloudinary SDK is outside the repository; a request's outcome is supplied by
the `uploadFn` parameter in the request pipelines below. -/
def uploadOutcome (uploadFn : UploadedFile → Except ApiError CloudinaryUploadResult)
    (f : UploadedFile) : Except ApiError CloudinaryUploadResult :=
  uploadFn f

/-- The full `POST /api/media` request path (`uploadSingleFile` middleware,
`handleMulterError`, then the `uploadMedia` controller): multer filter/size
checks, 400 when no file, `fileUploadSchema.parse` (requires a non-empty
`albumId`), album lookup (404) and ownership check (403), the Cloudinary
upload, then `createMediaItem`.  The last component counts how many times the
external storage upload endpoint was invoked. -/
def uploadMediaRequest (db : DB) (userId : String) (file : Option UploadedFile)
    (albumId : String) (title description : Option String)
    (uploadFn : UploadedFile → Except ApiError CloudinaryUploadResult) :
    DB × Except ApiError MediaItem × Nat :=
  match file with
  | none => (db, .error ⟨400, "No file uploaded"⟩, 0)
  | some f =>
    match multerCheckFile f with
    | .error e => (db, .error e, 0)
    | .ok _ =>
      if albumId.length < 1 then
        (db, .error ⟨400, "Validation error"⟩, 0)
      else
        match db.findAlbum albumId with
        | none => (db, .error ⟨404, "Album not found"⟩, 0)
        | some album =>
          if album.owner != userId then
            (db, .error ⟨403, "You do not have permission to add media to this album"⟩, 0)
          else
            match uploadOutcome uploadFn f with
            | .error e => (db, .error e, 1)
            | .ok r =>
              let mediaData : CreateMediaItemInput :=
                { type := if strStartsWith f.mimetype "image/" then .image else .video,
                  cloudinaryPublicId := r.publicId,
                  cloudinaryUrl := r.secureUrl,
                  thumbnailUrl := r.thumbnailUrl,
                  title := title,
                  description := description,
                  albumId := albumId }
              let (db', res) := createMediaItem db mediaData userId
              (db', res, 1)

/-- The `mediaData` object the multi-upload controller builds for one file:
media type from the MIME prefix, the Cloudinary identifiers, no per-file
title or description, and the shared `albumId`. -/
def fileMediaData (f : UploadedFile) (r : CloudinaryUploadResult)
    (albumId : String) : CreateMediaItemInput :=
  { type := if strStartsWith f.mimetype "image/" then .image else .video,
    cloudinaryPublicId := r.publicId,
    cloudinaryUrl := r.secureUrl,
    thumbnailUrl := r.thumbnailUrl,
    title := none,
    description := none,
    albumId := albumId }

/-- The per-file loop body of `uploadMultipleMedia`: upload to Cloudinary,
build `mediaData` (no per-file title/description), `createMediaItem`, push the
created item; files are processed strictly in order and the first failure
aborts the loop (the error propagates out of the controller's `for` loop).
Returns the database, the accumulated created items, the number of external
upload calls made, and the aborting error if any. -/
def processUploads (userId albumId : String)
    (uploadFn : UploadedFile → Except ApiError CloudinaryUploadResult) :
    List UploadedFile → DB → List MediaItem → Nat →
    DB × List MediaItem × Nat × Option ApiError
  | [], db, acc, calls => (db, acc, calls, none)
  | f :: rest, db, acc, calls =>
    match uploadOutcome uploadFn f with
    | .error e => (db, acc, calls + 1, some e)
    | .ok r =>
      match createMediaItem db (fileMediaData f r albumId) userId with
      | (db', .ok item) => processUploads userId albumId uploadFn rest db' (acc ++ [item]) (calls + 1)
      | (db', .error e) => (db', acc, calls + 1, some e)

/-- The full `POST /api/media/multiple` request path (`uploadMultipleFiles(5)`
middleware, `handleMulterError`, then `uploadMultipleMedia`): the multer
count limit (at most 5 files) and per-file filter, 400 when no files, one
`fileUploadSchema.parse` of the shared `albumId`, one album lookup (404) and
ownership check (403), then the sequential per-file loop; on success the
response message reports the count of created items. -/
def uploadMultipleMediaRequest (db : DB) (userId : String)
    (files : List UploadedFile) (albumId : String)
    (uploadFn : UploadedFile → Except ApiError CloudinaryUploadResult) :
    DB × Except ApiError (List MediaItem × String) × Nat :=
  if files.length > 5 then
    (db, .error ⟨400, "Too many files or unexpected field name"⟩, 0)
  else
    match files.findSome? (fun f =>
        match multerCheckFile f with | .error e => some e | .ok _ => none) with
    | some e => (db, .error e, 0)
    | none =>
      if files.isEmpty then
        (db, .error ⟨400, "No files uploaded"⟩, 0)
      else if albumId.length < 1 then
        (db, .error ⟨400, "Validation error"⟩, 0)
      else
        match db.findAlbum albumId with
        | none => (db, .error ⟨404, "Album not found"⟩, 0)
        | some album =>
          if album.owner != userId then
            (db, .error ⟨403, "You do not have permission to add media to this album"⟩, 0)
          else
            match processUploads userId albumId uploadFn files db [] 0 with
            | (db', _, calls, some e) => (db', .error e, calls)
            | (db', acc, calls, none) =>
              (db', .ok (acc, toString acc.length ++ " files uploaded successfully."), calls)

/-! ## Concrete fixtures used by witnesses and counterexamples -/

/-- A private album owned by user "1", containing media item "100". -/
def albumW : Album :=
  { id := "10", name := "Holiday", owner := "1", mediaItems := ["100"], isPublic := false }

/-- A media item uploaded by user "1" into album "10". -/
def mediaW : MediaItem :=
  { id := "100", type := .image, cloudinaryPublicId := "pid-100",
    cloudinaryUrl := "https://cdn.example/100", album := "10", uploader := "1" }

/-- The owner/uploader user. -/
def userW : User :=
  { id := "1", username := "alice", email := "alice@example.com", password := "hashed-pw" }

/-- A small concrete database: one user, one private album, one media item. -/
def dbW : DB :=
  { users := [userW], albums := [albumW], mediaItems := [mediaW], nextId := 500 }

/-- Two users for the registration-conflict scenario. -/
def userC6a : User :=
  { id := "1", username := "alice", email := "alice@example.com", password := "h1" }

/-- Second user, holding the email the counterexample registers with. -/
def userC6b : User :=
  { id := "2", username := "bob", email := "bob@example.com", password := "h2" }

/-- Database for the registration-conflict scenario. -/
def dbC6 : DB := { users := [userC6a, userC6b], nextId := 3 }

/-! ## C1 — reading an album: public-or-owner -/

/-- C1: for every stored album and every authenticated requester,
`getAlbumById` succeeds (returning the album) if and only if the album is
public or the requester is the owner; when the album exists, is not public,
and the requester is not the owner, the read fails with the 403 Forbidden
error. -/
theorem read_album_iff_public_or_owner (db : DB) (albumId userId : String)
    (album : Album) (hfind : db.findAlbum albumId = some album) :
    (getAlbumById db albumId userId = .ok album ↔
      (album.isPublic = true ∨ album.owner = userId)) ∧
    (album.isPublic = false → album.owner ≠ userId →
      getAlbumById db albumId userId =
        .error ⟨403, "You do not have permission to access this album"⟩) := by
  unfold getAlbumById
  rw [hfind]
  constructor
  · by_cases hp : album.isPublic <;> by_cases ho : album.owner = userId <;>
      simp [hp, ho]
  · intro hp ho
    simp [hp, ho]

/-- Witness for C1 at the concrete database: the owner reads the private
album, a stranger gets 403. -/
theorem read_album_iff_public_or_owner_witness :
    getAlbumById dbW "10" "1" = .ok albumW ∧
    getAlbumById dbW "10" "2" =
      .error ⟨403, "You do not have permission to access this album"⟩ :=
  ⟨(read_album_iff_public_or_owner dbW "10" "1" albumW (by decide)).1.mpr
      (Or.inr (by decide)),
    (read_album_iff_public_or_owner dbW "10" "2" albumW (by decide)).2
      (by decide) (by decide)⟩

/-! ## C5 — uniform "Invalid credentials" on login -/

/-- C5: a login attempt with an unknown email and a login attempt with a
known email but failing password comparison produce the same observable
outcome: a 401 error with message "Invalid credentials". -/
theorem login_failures_indistinguishable (db : DB)
    (compareFn : String → String → Bool) (email₁ password₁ email₂ password₂ : String)
    (h₁ : db.findUserByEmail email₁ = none)
    (h₂ : ∃ u, db.findUserByEmail email₂ = some u ∧
      compareFn password₂ u.password = false) :
    loginUser db compareFn email₁ password₁ = .error ⟨401, "Invalid credentials"⟩ ∧
    loginUser db compareFn email₂ password₂ = .error ⟨401, "Invalid credentials"⟩ ∧
    loginUser db compareFn email₁ password₁ = loginUser db compareFn email₂ password₂ := by
  obtain ⟨u, hu, hcmp⟩ := h₂
  unfold loginUser
  rw [h₁, hu]
  simp [hcmp]

/-- Witness for C5: unknown email vs. wrong password against the concrete
database, with string-equality standing in for the bcrypt comparison. -/
theorem login_failures_indistinguishable_witness :
    loginUser dbW (fun p h => p == h) "ghost@example.com" "pw" =
      .error ⟨401, "Invalid credentials"⟩ ∧
    loginUser dbW (fun p h => p == h) "alice@example.com" "wrong" =
      .error ⟨401, "Invalid credentials"⟩ ∧
    loginUser dbW (fun p h => p == h) "ghost@example.com" "pw" =
      loginUser dbW (fun p h => p == h) "alice@example.com" "wrong" :=
  login_failures_indistinguishable dbW (fun p h => p == h)
    "ghost@example.com" "pw" "alice@example.com" "wrong"
    (by decide) ⟨userW, by decide, by decide⟩

/-! ## C6 — duplicate registration conflicts -/

/-- C6 counterexample: in `dbC6` the requested email belongs to one user and
the requested username to a different, earlier-stored user; both fields
conflict simultaneously, yet `registerUser` reports the username conflict,
not the email conflict, because `User.findOne({$or:[{email},{username}]})`
returns the username-holder first. -/
theorem register_both_conflict_counterexample :
    (∃ u ∈ dbC6.users, u.email = "bob@example.com") ∧
    (∃ u ∈ dbC6.users, u.username = "alice") ∧
    (registerUser dbC6 "alice" "bob@example.com" "pw" (fun s => s)).2 =
      .error ⟨409, "Username already taken"⟩ ∧
    (registerUser dbC6 "alice" "bob@example.com" "pw" (fun s => s)).2 ≠
      .error ⟨409, "Email already in use"⟩ := by
  decide

/-- C6 amended: a registration whose email or username already belongs to an
existing user fails with 409 naming a conflicting field and writes nothing;
the field named is determined by the first user matched by the
email-or-username lookup — the email conflict when that user's email equals
the requested one (in particular whenever one user holds both the email and
the username), the username conflict otherwise. -/
theorem register_conflict_reports_first_match (db : DB)
    (username email password : String) (hashFn : String → String) (u : User)
    (h : db.users.find? (fun v => v.email == email || v.username == username) = some u) :
    (registerUser db username email password hashFn).1 = db ∧
    (u.email = email →
      (registerUser db username email password hashFn).2 =
        .error ⟨409, "Email already in use"⟩) ∧
    (u.email ≠ email →
      (registerUser db username email password hashFn).2 =
        .error ⟨409, "Username already taken"⟩) := by
  unfold registerUser
  rw [h]
  by_cases he : u.email = email <;> simp [he]

/-- Witness for C6's amended theorem: an email conflict (same stored user)
and a pure username conflict, both against `dbC6`. -/
theorem register_conflict_reports_first_match_witness :
    (registerUser dbC6 "newname" "alice@example.com" "pw" (fun s => s)).2 =
      .error ⟨409, "Email already in use"⟩ ∧
    (registerUser dbC6 "alice" "fresh@example.com" "pw" (fun s => s)).2 =
      .error ⟨409, "Username already taken"⟩ :=
  ⟨(register_conflict_reports_first_match dbC6 "newname" "alice@example.com" "pw"
      (fun s => s) userC6a (by decide)).2.1 (by decide),
    (register_conflict_reports_first_match dbC6 "alice" "fresh@example.com" "pw"
      (fun s => s) userC6a (by decide)).2.2 (by decide)⟩

/-! ## C7 — disallowed MIME types rejected before any effect -/

/-- C7: an upload whose file's MIME type starts with neither `image/` nor
`video/` is rejected by the multer file filter with the 400 "Only image and
video files are allowed" error; the database is returned unchanged and the
external-storage upload endpoint has been invoked zero times. -/
theorem upload_bad_mime_rejected_before_effects (db : DB) (userId : String)
    (f : UploadedFile) (albumId : String) (title description : Option String)
    (uploadFn : UploadedFile → Except ApiError CloudinaryUploadResult)
    (h : fileFilterAccepts f = false) :
    uploadMediaRequest db userId (some f) albumId title description uploadFn =
      (db, .error ⟨400, "Only image and video files are allowed"⟩, 0) := by
  unfold uploadMediaRequest multerCheckFile
  simp [h]

/-- Witness for C7: a PDF upload against the concrete database. -/
theorem upload_bad_mime_rejected_before_effects_witness :
    uploadMediaRequest dbW "1"
        (some { mimetype := "application/pdf", originalname := "doc.pdf", sizeBytes := 100 })
        "10" none none (fun _ => .error ⟨500, "unused"⟩) =
      (dbW, .error ⟨400, "Only image and video files are allowed"⟩, 0) :=
  upload_bad_mime_rejected_before_effects dbW "1"
    { mimetype := "application/pdf", originalname := "doc.pdf", sizeBytes := 100 }
    "10" none none (fun _ => .error ⟨500, "unused"⟩) (by decide)

/-! ## C10 — created albums are owned by the requester and start empty -/

/-- C10: the create-album schema ignores any `owner` or `mediaItems` values a
client supplies (zod strips unknown keys), and `createAlbum` always creates
the album with `owner` equal to the authenticated requester's id and an empty
`mediaItems` list, carrying over exactly the validated fields. -/
theorem create_album_forces_owner_and_empty_media (body : RawAlbumBody)
    (o : Option String) (ms : Option (List String)) (db : DB)
    (input : CreateAlbumInput) (userId : String) :
    createAlbumSchemaParse { body with owner := o, mediaItems := ms } =
      createAlbumSchemaParse body ∧
    ∃ album db', createAlbum db input userId = (db', .ok album) ∧
      album.owner = userId ∧ album.mediaItems = [] ∧
      album.name = input.name ∧ album.isPublic = input.isPublic ∧
      album.description = input.description ∧
      album.coverImageUrl = input.coverImageUrl := by
  constructor
  · cases body
    rfl
  · exact ⟨_, _, rfl, rfl, rfl, rfl, rfl, rfl, rfl⟩

/-! ## C2 — album delete: cascading, transactional -/

/-- C2: deleting an existing album as its owner removes, when the
transaction commits, every media item whose `album` reference equals the
album's id together with the album document itself (leaving users and
unrelated documents untouched); when any step of the transaction fails, the
transaction is aborted, an error is returned and the database is exactly the
prior state. -/
theorem delete_album_cascades_atomically (db : DB) (albumId userId : String)
    (album : Album) (hfind : db.findAlbum albumId = some album)
    (hown : album.owner = userId) :
    (∃ db', deleteAlbum db albumId userId true = (db', .ok "Album deleted successfully") ∧
      db'.findAlbum albumId = none ∧
      (∀ m ∈ db'.mediaItems, m.album ≠ albumId) ∧
      db'.mediaItems = db.mediaItems.filter (fun m => m.album != albumId) ∧
      db'.albums = db.albums.filter (fun a => a.id != albumId) ∧
      db'.users = db.users) ∧
    deleteAlbum db albumId userId false = (db, .error ⟨500, "Transaction aborted"⟩) := by
  have hbne : (album.owner != userId) = false := by simp [hown]
  have hrun : deleteAlbum db albumId userId true =
      ({ db with
          mediaItems := db.mediaItems.filter (fun m => m.album != albumId),
          albums := db.albums.filter (fun a => a.id != albumId) },
        .ok "Album deleted successfully") := by
    unfold deleteAlbum
    rw [hfind]
    simp [hbne]
  have habort : deleteAlbum db albumId userId false =
      (db, .error ⟨500, "Transaction aborted"⟩) := by
    unfold deleteAlbum
    rw [hfind]
    simp [hbne]
  refine ⟨⟨_, hrun, ?_, ?_, rfl, rfl, rfl⟩, habort⟩
  · simp only [DB.findAlbum, List.find?_eq_none, List.mem_filter]
    intro a ha
    simp only [bne_iff_ne, ne_eq] at ha
    simp [ha.2]
  · intro m hm
    simp only [List.mem_filter, bne_iff_ne, ne_eq] at hm
    exact hm.2

/-- Witness for C2 at the concrete database: the owner deletes album "10",
cascading to media item "100"; the aborted transaction changes nothing. -/
theorem delete_album_cascades_atomically_witness :
    (∃ db', deleteAlbum dbW "10" "1" true = (db', .ok "Album deleted successfully") ∧
      db'.findAlbum "10" = none ∧
      (∀ m ∈ db'.mediaItems, m.album ≠ "10") ∧
      db'.mediaItems = dbW.mediaItems.filter (fun m => m.album != "10") ∧
      db'.albums = dbW.albums.filter (fun a => a.id != "10") ∧
      db'.users = dbW.users) ∧
    deleteAlbum dbW "10" "1" false = (dbW, .error ⟨500, "Transaction aborted"⟩) :=
  delete_album_cascades_atomically dbW "10" "1" albumW (by decide) (by decide)

/-! ## C3 — media-item delete by its uploader -/

/-- C3: deleting media item "100" as its uploader through the first
`media.service.ts` revision returns the success message, invokes the
external-storage delete exactly once with the item's stored
`cloudinaryPublicId`, and leaves album "10" with an empty `mediaItems` list —
while the later revision (`deleteMediaItemV2`), on the same input, also
reports success and destroys the asset, but leaves the item's id still
present in the album's `mediaItems` list because its filter compares a
string against an ObjectId. -/
theorem delete_media_uploader_album_list_divergence :
    ((deleteMediaItem dbW "100" "1" true true).2.1 =
        .ok "Media item deleted successfully" ∧
      (deleteMediaItem dbW "100" "1" true true).2.2 = ["pid-100"] ∧
      (deleteMediaItem dbW "100" "1" true true).1.findAlbum "10" =
        some { albumW with mediaItems := [] } ∧
      (deleteMediaItem dbW "100" "1" true true).1.findMediaItem "100" = none) ∧
    ((deleteMediaItemV2 dbW "100" "1" true true).2.1 =
        .ok "Media item deleted successfully" ∧
      (deleteMediaItemV2 dbW "100" "1" true true).2.2 = ["pid-100"] ∧
      (deleteMediaItemV2 dbW "100" "1" true true).1.findAlbum "10" = some albumW ∧
      "100" ∈ albumW.mediaItems) := by
  decide

/-! ## C4 — storage failure after commit is surfaced -/

/-- C4 counterexample: with the local transaction committed and the
external-storage destroy call failing, `deleteMediaItem` does not return the
success result — the storage error propagates to the caller. -/
theorem delete_media_storage_failure_not_swallowed :
    (deleteMediaItem dbW "100" "1" true false).2.1 =
      .error ⟨500, "Cloudinary destroy failed"⟩ ∧
    (deleteMediaItem dbW "100" "1" true false).2.1 ≠
      .ok "Media item deleted successfully" := by
  decide

/-- C4 amended: when the transaction commits but the subsequent
external-storage destroy fails, the error is surfaced to the caller
(`deleteMediaItem` rethrows it), while the committed local deletion stands:
the resulting database is exactly the one a fully successful delete
produces, and the destroy endpoint was invoked once with the item's stored
public asset id. -/
theorem delete_media_storage_failure_surfaced (db : DB) (mediaItemId userId : String)
    (item : MediaItem) (album : Album)
    (hitem : db.findMediaItem mediaItemId = some item)
    (halbum : db.findAlbum item.album = some album)
    (hperm : item.uploader = userId ∨ album.owner = userId) :
    ∃ db', deleteMediaItem db mediaItemId userId true false =
        (db', .error ⟨500, "Cloudinary destroy failed"⟩, [item.cloudinaryPublicId]) ∧
      db'.findMediaItem mediaItemId = none ∧
      deleteMediaItem db mediaItemId userId true true =
        (db', .ok "Media item deleted successfully", [item.cloudinaryPublicId]) := by
  have hperm' : (!(item.uploader == userId) && !(album.owner == userId)) = false := by
    rcases hperm with h | h <;> simp [h]
  refine ⟨{ db with
      mediaItems := db.mediaItems.filter (fun m => m.id != mediaItemId),
      albums := db.albums.map (fun a => if a.id == album.id then
        { album with mediaItems := album.mediaItems.filter (fun idStr => idStr != mediaItemId) }
        else a) }, ?_, ?_, ?_⟩
  · unfold deleteMediaItem
    simp only [hitem, halbum]
    simp [hperm']
  · simp only [DB.findMediaItem, List.find?_eq_none, List.mem_filter]
    intro m hm
    simp only [bne_iff_ne, ne_eq] at hm
    simp [hm.2]
  · unfold deleteMediaItem
    simp only [hitem, halbum]
    simp [hperm']

/-- Witness for C4's amended theorem at the concrete database. -/
theorem delete_media_storage_failure_surfaced_witness :
    ∃ db', deleteMediaItem dbW "100" "1" true false =
        (db', .error ⟨500, "Cloudinary destroy failed"⟩, ["pid-100"]) ∧
      db'.findMediaItem "100" = none ∧
      deleteMediaItem dbW "100" "1" true true =
        (db', .ok "Media item deleted successfully", ["pid-100"]) :=
  delete_media_storage_failure_surfaced dbW "100" "1" mediaW albumW
    (by decide) (by decide) (Or.inl (by decide))

/-! ## C9 — not-found always precedes permission checks -/

/-- An empty database: every lookup misses. -/
def dbEmpty : DB := {}

/-- A media item whose album reference points at no stored album. -/
def mediaOrphan : MediaItem :=
  { id := "7", type := .video, cloudinaryPublicId := "pid-7",
    cloudinaryUrl := "https://cdn.example/7", album := "404", uploader := "1" }

/-- A database containing only the orphan media item. -/
def dbOrphan : DB := { mediaItems := [mediaOrphan], nextId := 9 }

/-- C9: in every operation that both looks up a resource by id and enforces a
permission rule, an id that denotes no existing resource yields the 404
Not-Found error — for every requester, so the permission outcome can never
preempt it — and, conversely, a 403 outcome implies the looked-up resources
exist. -/
theorem not_found_beats_permission (db : DB) (rid uid : String) (tx dsy : Bool)
    (upd : UpdateAlbumInput) (updM : UpdateMediaItemInput)
    (mediaData : CreateMediaItemInput) (item : MediaItem) :
    (db.findAlbum rid = none →
      getAlbumById db rid uid = .error ⟨404, "Album not found"⟩) ∧
    (db.findAlbum rid = none →
      updateAlbum db rid upd uid = (db, .error ⟨404, "Album not found"⟩)) ∧
    (db.findAlbum rid = none →
      deleteAlbum db rid uid tx = (db, .error ⟨404, "Album not found"⟩)) ∧
    (db.findAlbum rid = none →
      getMediaItemsByAlbum db rid uid = .error ⟨404, "Album not found"⟩) ∧
    (db.findAlbum mediaData.albumId = none →
      createMediaItem db mediaData uid = (db, .error ⟨404, "Album not found"⟩)) ∧
    (db.findMediaItem rid = none →
      getMediaItemById db rid uid = .error ⟨404, "Media item not found"⟩) ∧
    (db.findMediaItem rid = none →
      updateMediaItem db rid updM uid = (db, .error ⟨404, "Media item not found"⟩)) ∧
    (db.findMediaItem rid = none →
      deleteMediaItem db rid uid tx dsy = (db, .error ⟨404, "Media item not found"⟩, [])) ∧
    (db.findMediaItem rid = some item → db.findAlbum item.album = none →
      getMediaItemById db rid uid = .error ⟨404, "Album not found"⟩) ∧
    (db.findMediaItem rid = some item → db.findAlbum item.album = none →
      deleteMediaItem db rid uid tx dsy = (db, .error ⟨404, "Album not found"⟩, [])) ∧
    (∀ e, getAlbumById db rid uid = .error e → e.status = 403 →
      ∃ a, db.findAlbum rid = some a) ∧
    (∀ e trace db', deleteMediaItem db rid uid tx dsy = (db', .error e, trace) →
      e.status = 403 →
      ∃ m a, db.findMediaItem rid = some m ∧ db.findAlbum m.album = some a) := by
  refine ⟨?_, ?_, ?_, ?_, ?_, ?_, ?_, ?_, ?_, ?_, ?_, ?_⟩
  · intro h; unfold getAlbumById; rw [h]
  · intro h; unfold updateAlbum; rw [h]
  · intro h; unfold deleteAlbum; rw [h]
  · intro h; unfold getMediaItemsByAlbum; rw [h]
  · intro h; unfold createMediaItem; rw [h]
  · intro h; unfold getMediaItemById; rw [h]
  · intro h; unfold updateMediaItem; rw [h]
  · intro h; unfold deleteMediaItem; rw [h]
  · intro h₁ h₂; unfold getMediaItemById; simp only [h₁, h₂]
  · intro h₁ h₂; unfold deleteMediaItem; simp only [h₁, h₂]
  · intro e he hs
    cases hfa : db.findAlbum rid with
    | none =>
      unfold getAlbumById at he
      rw [hfa] at he
      simp only [Except.error.injEq] at he
      subst he
      exact absurd hs (by decide)
    | some a => exact ⟨a, rfl⟩
  · intro e trace db' heq hs
    cases hfm : db.findMediaItem rid with
    | none =>
      unfold deleteMediaItem at heq
      rw [hfm] at heq
      simp only [Prod.mk.injEq, Except.error.injEq] at heq
      obtain ⟨-, he, -⟩ := heq
      subst he
      exact absurd hs (by decide)
    | some m =>
      cases hfa : db.findAlbum m.album with
      | none =>
        unfold deleteMediaItem at heq
        simp only [hfm, hfa, Prod.mk.injEq, Except.error.injEq] at heq
        obtain ⟨-, he, -⟩ := heq
        subst he
        exact absurd hs (by decide)
      | some a => exact ⟨m, a, rfl, hfa⟩

/-- Witness for C9: missing-album and missing-media-item lookups produce 404
for arbitrary requesters, an orphaned media item produces "Album not found",
and concrete 403 outcomes imply the resources exist. -/
theorem not_found_beats_permission_witness :
    getAlbumById dbEmpty "z" "u" = .error ⟨404, "Album not found"⟩ ∧
    updateAlbum dbEmpty "z" {} "u" = (dbEmpty, .error ⟨404, "Album not found"⟩) ∧
    deleteAlbum dbEmpty "z" "u" true = (dbEmpty, .error ⟨404, "Album not found"⟩) ∧
    getMediaItemsByAlbum dbEmpty "z" "u" = .error ⟨404, "Album not found"⟩ ∧
    createMediaItem dbEmpty
        { type := .image, cloudinaryPublicId := "p", cloudinaryUrl := "u",
          albumId := "z" } "u" =
      (dbEmpty, .error ⟨404, "Album not found"⟩) ∧
    getMediaItemById dbEmpty "z" "u" = .error ⟨404, "Media item not found"⟩ ∧
    updateMediaItem dbEmpty "z" {} "u" = (dbEmpty, .error ⟨404, "Media item not found"⟩) ∧
    deleteMediaItem dbEmpty "z" "u" true true =
      (dbEmpty, .error ⟨404, "Media item not found"⟩, []) ∧
    getMediaItemById dbOrphan "7" "u" = .error ⟨404, "Album not found"⟩ ∧
    deleteMediaItem dbOrphan "7" "u" true true =
      (dbOrphan, .error ⟨404, "Album not found"⟩, []) ∧
    (∃ a, dbW.findAlbum "10" = some a) ∧
    (∃ m a, dbW.findMediaItem "100" = some m ∧ dbW.findAlbum m.album = some a) := by
  have h₁ := not_found_beats_permission dbEmpty "z" "u" true true {} {}
    { type := .image, cloudinaryPublicId := "p", cloudinaryUrl := "u", albumId := "z" }
    mediaOrphan
  have h₂ := not_found_beats_permission dbOrphan "7" "u" true true {} {}
    { type := .image, cloudinaryPublicId := "p", cloudinaryUrl := "u", albumId := "z" }
    mediaOrphan
  have h₃ := not_found_beats_permission dbW "10" "2" true true {} {}
    { type := .image, cloudinaryPublicId := "p", cloudinaryUrl := "u", albumId := "z" }
    mediaOrphan
  have h₄ := not_found_beats_permission dbW "100" "2" true true {} {}
    { type := .image, cloudinaryPublicId := "p", cloudinaryUrl := "u", albumId := "z" }
    mediaOrphan
  refine ⟨h₁.1 (by decide), h₁.2.1 (by decide), h₁.2.2.1 (by decide),
    h₁.2.2.2.1 (by decide), h₁.2.2.2.2.1 (by decide), h₁.2.2.2.2.2.1 (by decide),
    h₁.2.2.2.2.2.2.1 (by decide), h₁.2.2.2.2.2.2.2.1 (by decide),
    h₂.2.2.2.2.2.2.2.2.1 (by decide) (by decide),
    h₂.2.2.2.2.2.2.2.2.2.1 (by decide) (by decide),
    h₃.2.2.2.2.2.2.2.2.2.2.1 ⟨403, "You do not have permission to access this album"⟩
      (by decide) rfl,
    h₄.2.2.2.2.2.2.2.2.2.2.2
      ⟨403, "You do not have permission to delete this media item"⟩ [] dbW
      (by decide) rfl⟩

/-! ## C8 — multi-upload: sequential, shared check, no rollback -/

/-- Replacing, in a list of albums, every album carrying the found album's id
by an update with the same id moves `find?` from the found album to the
update. -/
theorem find?_update_of_found (l : List Album) (aid : String) (album album' : Album)
    (hid : album'.id = album.id)
    (h : l.find? (fun a => a.id == aid) = some album) :
    (l.map (fun a => if a.id == album.id then album' else a)).find?
      (fun a => a.id == aid) = some album' := by
  have hpa : (album.id == aid) = true := by
    have := List.find?_some h
    simpa using this
  rw [List.find?_map]
  have hfun : ((fun a : Album => a.id == aid) ∘
      (fun a => if a.id == album.id then album' else a)) =
      (fun a : Album => a.id == aid) := by
    funext a
    by_cases hc : (a.id == album.id) = true
    · have ha : a.id = album.id := by simpa using hc
      simp [Function.comp, hc, hid, ha]
    · simp [Function.comp, hc]
  rw [hfun, h]
  have hcond : (album.id == album.id) = true := by simp
  simp [hcond]

/-- Evaluating `createMediaItem` when the album exists and is owned by the
requester: the created item is appended to the collection and its id pushed
onto the found album's list. -/
theorem createMediaItem_found (db : DB) (mediaData : CreateMediaItemInput)
    (userId : String) (album : Album)
    (hfind : db.findAlbum mediaData.albumId = some album)
    (hown : album.owner = userId) :
    createMediaItem db mediaData userId =
      ({ db with
          mediaItems := db.mediaItems ++ [newMediaItem db mediaData userId],
          albums := db.albums.map (fun a => if a.id == album.id then
            { album with
              mediaItems := album.mediaItems ++ [(newMediaItem db mediaData userId).id] }
            else a),
          nextId := db.nextId + 1 },
        .ok (newMediaItem db mediaData userId)) := by
  have hbne : (album.owner != userId) = false := by simp [hown]
  unfold createMediaItem
  simp only [hfind, hbne, Bool.false_eq_true, if_false]

/-- Running the multi-upload loop over files whose external uploads all
succeed: one item is created per file, appended in order to the collection
and to the found album's media list, the upload endpoint is called once per
file, and no error is produced. -/
theorem processUploads_all_ok (userId albumId : String)
    (uploadFn : UploadedFile → Except ApiError CloudinaryUploadResult) :
    ∀ (fs : List UploadedFile) (db : DB) (acc : List MediaItem) (calls : Nat)
      (album : Album),
      db.findAlbum albumId = some album → album.owner = userId →
      (∀ g ∈ fs, ∃ r, uploadFn g = .ok r) →
      ∃ (db' : DB) (created : List MediaItem),
        processUploads userId albumId uploadFn fs db acc calls =
          (db', acc ++ created, calls + fs.length, none) ∧
        created.length = fs.length ∧
        db'.mediaItems = db.mediaItems ++ created ∧
        db'.findAlbum albumId =
          some { album with mediaItems := album.mediaItems ++ created.map MediaItem.id } ∧
        (∀ c ∈ created, c.album = albumId ∧ c.uploader = userId) := by
  intro fs
  induction fs with
  | nil =>
    intro db acc calls album hfind hown _
    refine ⟨db, [], ?_, rfl, by simp, ?_, by simp⟩
    · simp [processUploads]
    · simpa using hfind
  | cons f fs ih =>
    intro db acc calls album hfind hown hok
    obtain ⟨r, hr⟩ := hok f (List.mem_cons_self f fs)
    have hfind' : db.findAlbum (fileMediaData f r albumId).albumId = some album := hfind
    have hcreate := createMediaItem_found db (fileMediaData f r albumId) userId album
      hfind' hown
    have hstep : processUploads userId albumId uploadFn (f :: fs) db acc calls =
        processUploads userId albumId uploadFn fs
          { db with
            mediaItems := db.mediaItems ++ [newMediaItem db (fileMediaData f r albumId) userId],
            albums := db.albums.map (fun a => if a.id == album.id then
              { album with mediaItems := album.mediaItems ++
                  [(newMediaItem db (fileMediaData f r albumId) userId).id] }
              else a),
            nextId := db.nextId + 1 }
          (acc ++ [newMediaItem db (fileMediaData f r albumId) userId]) (calls + 1) := by
      simp only [processUploads, uploadOutcome, hr, hcreate]
    set item := newMediaItem db (fileMediaData f r albumId) userId with hitem
    set db₁ : DB :=
      { db with
        mediaItems := db.mediaItems ++ [item],
        albums := db.albums.map (fun a => if a.id == album.id then
          { album with mediaItems := album.mediaItems ++ [item.id] } else a),
        nextId := db.nextId + 1 } with hdb₁
    have hfind₁ : db₁.findAlbum albumId =
        some { album with mediaItems := album.mediaItems ++ [item.id] } := by
      show (db.albums.map (fun a => if a.id == album.id then
          { album with mediaItems := album.mediaItems ++ [item.id] } else a)).find?
          (fun a => a.id == albumId) =
        some { album with mediaItems := album.mediaItems ++ [item.id] }
      exact find?_update_of_found db.albums albumId album _ rfl hfind
    have hown₁ : ({ album with mediaItems := album.mediaItems ++ [item.id] } : Album).owner
        = userId := hown
    have hok₁ : ∀ g ∈ fs, ∃ r, uploadFn g = .ok r := fun g hg =>
      hok g (List.mem_cons_of_mem f hg)
    obtain ⟨db', created, heq, hlen, hmedia, hfind₂, hall⟩ :=
      ih db₁ (acc ++ [item]) (calls + 1)
        { album with mediaItems := album.mediaItems ++ [item.id] } hfind₁ hown₁ hok₁
    refine ⟨db', item :: created, ?_, by simp [hlen], ?_, ?_, ?_⟩
    · rw [hstep, heq]
      simp only [List.length_cons, List.append_assoc, List.singleton_append]
      have harith : calls + 1 + fs.length = calls + (fs.length + 1) := by omega
      rw [harith]
    · rw [hmedia]
      simp [hdb₁]
    · rw [hfind₂]
      simp [List.append_assoc]
    · intro c hc
      rcases List.mem_cons.mp hc with rfl | hc
      · exact ⟨rfl, rfl⟩
      · exact hall c hc

/-- Running the multi-upload loop when the uploads of a leading segment
succeed and the next file's upload fails: the loop stops at the failure —
one upload call per processed file, none for the remaining files — the error
is returned, and the items created for the leading segment stay in the
collection and in the album's media list. -/
theorem processUploads_stops_on_failure (userId albumId : String)
    (uploadFn : UploadedFile → Except ApiError CloudinaryUploadResult)
    (f : UploadedFile) (e : ApiError) (hf : uploadFn f = .error e) :
    ∀ (fs₁ fs₂ : List UploadedFile) (db : DB) (acc : List MediaItem) (calls : Nat)
      (album : Album),
      db.findAlbum albumId = some album → album.owner = userId →
      (∀ g ∈ fs₁, ∃ r, uploadFn g = .ok r) →
      ∃ (db' : DB) (created : List MediaItem),
        processUploads userId albumId uploadFn (fs₁ ++ f :: fs₂) db acc calls =
          (db', acc ++ created, calls + fs₁.length + 1, some e) ∧
        created.length = fs₁.length ∧
        db'.mediaItems = db.mediaItems ++ created ∧
        db'.findAlbum albumId =
          some { album with mediaItems := album.mediaItems ++ created.map MediaItem.id } := by
  intro fs₁
  induction fs₁ with
  | nil =>
    intro fs₂ db acc calls album hfind hown _
    refine ⟨db, [], ?_, rfl, by simp, ?_⟩
    · simp [processUploads, uploadOutcome, hf]
    · simpa using hfind
  | cons g fs₁ ih =>
    intro fs₂ db acc calls album hfind hown hok
    obtain ⟨r, hr⟩ := hok g (List.mem_cons_self g fs₁)
    have hfind' : db.findAlbum (fileMediaData g r albumId).albumId = some album := hfind
    have hcreate := createMediaItem_found db (fileMediaData g r albumId) userId album
      hfind' hown
    have hstep : processUploads userId albumId uploadFn ((g :: fs₁) ++ f :: fs₂) db acc calls =
        processUploads userId albumId uploadFn (fs₁ ++ f :: fs₂)
          { db with
            mediaItems := db.mediaItems ++ [newMediaItem db (fileMediaData g r albumId) userId],
            albums := db.albums.map (fun a => if a.id == album.id then
              { album with mediaItems := album.mediaItems ++
                  [(newMediaItem db (fileMediaData g r albumId) userId).id] }
              else a),
            nextId := db.nextId + 1 }
          (acc ++ [newMediaItem db (fileMediaData g r albumId) userId]) (calls + 1) := by
      simp only [List.cons_append, processUploads, uploadOutcome, hr, hcreate]
      rfl
    set item := newMediaItem db (fileMediaData g r albumId) userId with hitem
    set db₁ : DB :=
      { db with
        mediaItems := db.mediaItems ++ [item],
        albums := db.albums.map (fun a => if a.id == album.id then
          { album with mediaItems := album.mediaItems ++ [item.id] } else a),
        nextId := db.nextId + 1 } with hdb₁
    have hfind₁ : db₁.findAlbum albumId =
        some { album with mediaItems := album.mediaItems ++ [item.id] } := by
      show (db.albums.map (fun a => if a.id == album.id then
          { album with mediaItems := album.mediaItems ++ [item.id] } else a)).find?
          (fun a => a.id == albumId) =
        some { album with mediaItems := album.mediaItems ++ [item.id] }
      exact find?_update_of_found db.albums albumId album _ rfl hfind
    have hown₁ : ({ album with mediaItems := album.mediaItems ++ [item.id] } : Album).owner
        = userId := hown
    have hok₁ : ∀ x ∈ fs₁, ∃ r, uploadFn x = .ok r := fun x hx =>
      hok x (List.mem_cons_of_mem g hx)
    obtain ⟨db', created, heq, hlen, hmedia, hfind₂⟩ :=
      ih fs₂ db₁ (acc ++ [item]) (calls + 1)
        { album with mediaItems := album.mediaItems ++ [item.id] } hfind₁ hown₁ hok₁
    refine ⟨db', item :: created, ?_, by simp [hlen], ?_, ?_⟩
    · rw [hstep, heq]
      simp only [List.length_cons, List.append_assoc, List.singleton_append]
      have harith : calls + 1 + fs₁.length + 1 = calls + (fs₁.length + 1) + 1 := by omega
      rw [harith]
    · rw [hmedia]
      simp [hdb₁]
    · rw [hfind₂]
      simp [List.append_assoc]

/-- C8: in a multi-file upload whose files pass the multer checks (at most 5
files, allowed MIME types) against an existing album owned by the requester —
the shared `albumId` being validated once and the album checked once — the
files are processed strictly sequentially: when every external upload
succeeds, one media item per file is created (in file order) and the response
reports the count of created items, with exactly one storage call per file;
when the upload of file k fails, the loop stops there (k storage calls, none
for later files), the error is returned, and — with no per-file rollback —
the media items created for files 1..k-1 remain in the database and in the
album's media list. -/
theorem multi_upload_sequential_no_rollback (db : DB) (userId albumId : String)
    (uploadFn : UploadedFile → Except ApiError CloudinaryUploadResult)
    (files : List UploadedFile) (album : Album)
    (hcount : files.length ≤ 5)
    (hmulter : ∀ g ∈ files, multerCheckFile g = .ok ())
    (hne : files ≠ [])
    (hid : 1 ≤ albumId.length)
    (hfind : db.findAlbum albumId = some album)
    (hown : album.owner = userId) :
    ((∀ g ∈ files, ∃ r, uploadFn g = .ok r) →
      ∃ db' created, uploadMultipleMediaRequest db userId files albumId uploadFn =
          (db', .ok (created, toString created.length ++ " files uploaded successfully."),
            files.length) ∧
        created.length = files.length ∧
        db'.mediaItems = db.mediaItems ++ created ∧
        db'.findAlbum albumId =
          some { album with mediaItems := album.mediaItems ++ created.map MediaItem.id }) ∧
    (∀ fs₁ f fs₂ e, files = fs₁ ++ f :: fs₂ →
      (∀ g ∈ fs₁, ∃ r, uploadFn g = .ok r) → uploadFn f = .error e →
      ∃ db' created, uploadMultipleMediaRequest db userId files albumId uploadFn =
          (db', .error e, fs₁.length + 1) ∧
        created.length = fs₁.length ∧
        db'.mediaItems = db.mediaItems ++ created ∧
        db'.findAlbum albumId =
          some { album with mediaItems := album.mediaItems ++ created.map MediaItem.id }) := by
  have hpipe : uploadMultipleMediaRequest db userId files albumId uploadFn =
      (match processUploads userId albumId uploadFn files db [] 0 with
        | (db', _, calls, some e) => (db', .error e, calls)
        | (db', acc, calls, none) =>
          (db', .ok (acc, toString acc.length ++ " files uploaded successfully."), calls)) := by
    unfold uploadMultipleMediaRequest
    have h5 : ¬ (files.length > 5) := by omega
    rw [if_neg h5]
    have hfs : files.findSome? (fun f => match multerCheckFile f with
        | .error e => some e | .ok _ => none) = none := by
      rw [List.findSome?_eq_none_iff]
      intro g hg
      rw [hmulter g hg]
    have hempty : files.isEmpty = false := by
      cases files with
      | nil => exact absurd rfl hne
      | cons a l => rfl
    have hlt : ¬ (albumId.length < 1) := by omega
    have hbne : (album.owner != userId) = false := by simp [hown]
    simp only [hfs, hempty, Bool.false_eq_true, if_false, if_neg hlt, hfind, hbne]
  constructor
  · intro hallok
    obtain ⟨db', created, heq, hlen, hmedia, hfind', -⟩ :=
      processUploads_all_ok userId albumId uploadFn files db [] 0 album hfind hown hallok
    refine ⟨db', created, ?_, hlen, hmedia, hfind'⟩
    rw [hpipe, heq]
    simp
  · intro fs₁ f fs₂ e hsplit hok hf
    subst hsplit
    obtain ⟨db', created, heq, hlen, hmedia, hfind'⟩ :=
      processUploads_stops_on_failure userId albumId uploadFn f e hf fs₁ fs₂ db [] 0
        album hfind hown hok
    refine ⟨db', created, ?_, hlen, hmedia, hfind'⟩
    rw [hpipe, heq]
    simp

/-- A small image file that passes the multer checks. -/
def fileImg : UploadedFile :=
  { mimetype := "image/png", originalname := "a.png", sizeBytes := 1000 }

/-- A small video file that passes the multer checks. -/
def fileVid : UploadedFile :=
  { mimetype := "video/mp4", originalname := "b.mp4", sizeBytes := 2000 }

/-- A concrete external-storage outcome: image uploads succeed, video uploads
fail with the 500 the service maps Cloudinary failures to. -/
def uploadFnW : UploadedFile → Except ApiError CloudinaryUploadResult := fun f =>
  if strStartsWith f.mimetype "image/" then
    .ok { publicId := "p-" ++ f.originalname,
          secureUrl := "https://cdn.example/" ++ f.originalname,
          resourceType := "image", format := "png" }
  else
    .error ⟨500, "Failed to upload file to Cloudinary"⟩

/-- Witness for C8: a fully successful one-file batch reporting its count,
and a two-file batch whose second upload fails after the first file's media
item was created — the first item stays in the database and album. -/
theorem multi_upload_sequential_no_rollback_witness :
    (∃ db' created, uploadMultipleMediaRequest dbW "1" [fileImg] "10" uploadFnW =
        (db', .ok (created, toString created.length ++ " files uploaded successfully."), 1) ∧
      created.length = 1 ∧
      db'.mediaItems = dbW.mediaItems ++ created ∧
      db'.findAlbum "10" =
        some { albumW with mediaItems := albumW.mediaItems ++ created.map MediaItem.id }) ∧
    (∃ db' created, uploadMultipleMediaRequest dbW "1" [fileImg, fileVid] "10" uploadFnW =
        (db', .error ⟨500, "Failed to upload file to Cloudinary"⟩, 2) ∧
      created.length = 1 ∧
      db'.mediaItems = dbW.mediaItems ++ created ∧
      db'.findAlbum "10" =
        some { albumW with mediaItems := albumW.mediaItems ++ created.map MediaItem.id }) := by
  constructor
  · exact (multi_upload_sequential_no_rollback dbW "1" "10" uploadFnW [fileImg] albumW
      (by decide) (by decide) (by decide) (by decide) (by decide) (by decide)).1
      (by
        intro g hg
        simp only [List.mem_singleton] at hg
        subst hg
        exact ⟨_, rfl⟩)
  · exact (multi_upload_sequential_no_rollback dbW "1" "10" uploadFnW [fileImg, fileVid]
      albumW (by decide) (by decide) (by decide) (by decide) (by decide) (by decide)).2
      [fileImg] fileVid [] ⟨500, "Failed to upload file to Cloudinary"⟩ rfl
      (by
        intro g hg
        simp only [List.mem_singleton] at hg
        subst hg
        exact ⟨_, rfl⟩)
      rfl

end MemoriesAlbum
